import Mathlib

/-!
# Verification of the portguard detection pipeline

Shallow embedding of `src/guard.go` (package `main` of qsdj/portguard):
the scan-state engine, the port-availability cache, the TCP packet
classifier, the reaction dispatcher, and the per-packet step of the
TCP guard loop, together with proofs of the specification's claims.

Go maps `map[string][]int` and `map[int]int64` are embedded as total
functions with an explicit "absent" default (`[]` resp. `none`), which
matches Go's zero-value semantics for map reads.  Go `int` ports are
always built from `uint16` header fields, so they are embedded as `Nat`;
Unix timestamps and the cache duration are `int64` in Go and embedded
as `Int`.
-/

namespace Portguard

/-- A Go `map[string][]int`: the per-source scan state
(`stateEngine` in guard.go). A missing key reads as the empty slice. -/
def StateEngine : Type := String → List Nat

/-- A Go `map[int]int64`: destination port to cache-entry expiry
(`checkedPortCache` in guard.go). A missing key reads as `none`. -/
def PortCache : Type := Nat → Option Int

/-- `stateEngine` as initialised in guard.go's `init`: an empty map. -/
def emptyEngine : StateEngine := fun _ => []

/-- `checkedPortCache` as initialised in guard.go's `init`: an empty map. -/
def emptyCache : PortCache := fun _ => none

/-- Go map assignment `m[k] = v` on a `map[string][]int`. -/
def StateEngine.store (m : StateEngine) (k : String) (v : List Nat) : StateEngine :=
  fun x => if x = k then v else m x

/-- Go map assignment `m[k] = v` on a `map[int]int64`. -/
def PortCache.store (c : PortCache) (k : Nat) (v : Int) : PortCache :=
  fun x => if x = k then some v else c x

/-- Go `delete(m, k)` on a `map[int]int64`. -/
def PortCache.erase (c : PortCache) (k : Nat) : PortCache :=
  fun x => if x = k then none else c x

/-- Embeds `isBlockedIP` (guard.go:178-188): a source is blocked iff its
stored port sequence is longer than `cfgScanTrigger` (here `T`);
a source with no entry is not blocked. -/
def isBlockedIP (T : Nat) (m : StateEngine) (ip : String) : Bool :=
  decide ((m ip).length > T)

/-- Embeds `checkStateEngine` (guard.go:191-213).  `T` is
`cfgScanTrigger`.  Returns the Go function's boolean ("true if trigger
blocked") together with the updated `stateEngine` map.  An unseen ip
starts from the empty slice (`make([]int, sz)[:0]`); a sequence already
at capacity `sz = T+1` returns `true` unchanged; a duplicate port
returns `false` unchanged; otherwise the port is appended and the
result is whether the new length reached `sz`. -/
def checkStateEngine (T : Nat) (m : StateEngine) (ip : String) (port : Nat) :
    Bool × StateEngine :=
  let ports := m ip
  let sz := T + 1
  if sz ≤ ports.length then (true, m)
  else if port ∈ ports then (false, m)
  else
    let ports' := ports ++ [port]
    let m' := m.store ip ports'
    if sz ≤ ports'.length then (true, m') else (false, m')

/-- A run of direct `checkStateEngine` calls: fold the calls over the
`stateEngine` map, keeping only the final map. -/
def runStateEngine (T : Nat) (m : StateEngine) : List (String × Nat) → StateEngine
  | [] => m
  | (ip, port) :: rest => runStateEngine T (checkStateEngine T m ip port).2 rest

/-- Embeds `smartVerifyPort` (guard.go:113-129), with the two syscall
outcomes as parameters: `socketOk` is whether `syscall.Socket`
succeeded, `bindErr` is whether `syscall.Bind` returned an error.
Socket-creation failure returns `false`; a bind error means the port is
in use (`true`); a successful bind means the port is free (`false`). -/
def smartVerifyPort (socketOk : Bool) (bindErr : Bool) : Bool :=
  if !socketOk then false
  else if bindErr then true
  else false

/-- Result of one `smartVerify` call: the returned boolean, the updated
`checkedPortCache`, and whether a live bind probe (`smartVerifyPort`)
was performed. -/
structure SmartVerifyResult where
  inUse : Bool
  cache : PortCache
  probed : Bool

/-- Embeds `smartVerify` (guard.go:134-153).  `D` is
`*portCacheDuration`, `now` is `time.Now().Unix()`, and `probe` is the
value `smartVerifyPort(port)` would return on this call (the OS
outcome).  `D ≤ 0` disables the cache (always live-probe, never store).
Otherwise: an unexpired entry answers `true` without probing; an
expired entry is deleted; after a live probe a positive result is
stored with expiry `now + D`. -/
def smartVerify (D : Int) (c : PortCache) (now : Int) (probe : Bool) (port : Nat) :
    SmartVerifyResult :=
  if D ≤ 0 then ⟨probe, c, true⟩
  else
    match c port with
    | some expire =>
      if expire > now then ⟨true, c, false⟩
      else
        let c' := c.erase port
        if probe then ⟨true, c'.store port (now + D), true⟩
        else ⟨false, c', true⟩
    | none =>
      if probe then ⟨true, c.store port (now + D), true⟩
      else ⟨false, c, true⟩

/-- Modelled from the spec: the TCP control-flag bit constants (the
header file defining `FIN`/`SYN`/`RST`/`PSH`/`ACK`/`URG` is not under
src/).  Spec section 3 lists the bitmask bits in RFC 793 order
FIN, SYN, RST, PSH, ACK, URG, i.e. FIN is the lowest bit. -/
def FIN : Nat := 1

/-- RFC 793 SYN bit (see `FIN`). -/
def SYN : Nat := 2

/-- RFC 793 RST bit (see `FIN`). -/
def RST : Nat := 4

/-- RFC 793 PSH bit (see `FIN`). -/
def PSH : Nat := 8

/-- RFC 793 ACK bit (see `FIN`). -/
def ACK : Nat := 16

/-- RFC 793 URG bit (see `FIN`). -/
def URG : Nat := 32

/-- Modelled from the spec: `TCPHeader.HasFlag` (the header file is not
under src/): whether a given control bit is set in the flags octet. -/
def hasFlag (ctrl flag : Nat) : Bool := ctrl &&& flag ≠ 0

/-- The classification labels produced by `reportPacketType`
(guard.go:24-28): the spec's owned tagged variant
`{Null, Xmas, Syn, Unknown(flags)}` standing for the four strings
`tcpPacketTypeNull/XMAS/SYN/Unknown`. -/
inductive PacketType where
  | null : PacketType
  | xmas : PacketType
  | syn : PacketType
  | unknown (flags : Nat) : PacketType
  deriving DecidableEq, Repr

/-- Embeds `reportPacketType` (guard.go:215-226): `Null` when the flag
byte is zero, else `Xmas` when FIN, URG and PSH are all set (other bits
ignored), else `Syn` when the byte equals SYN exactly, else `Unknown`
carrying the raw byte. -/
def reportPacketType (flags : Nat) : PacketType :=
  if flags = 0 then .null
  else if flags &&& (FIN ||| URG ||| PSH) = FIN ||| URG ||| PSH then .xmas
  else if flags = SYN then .syn
  else .unknown flags

/-- The fields of the Go `TCPHeader` used by the guard loop: source
port, destination port, control-flag octet (each from `uint16` /
`uint8` fields, hence `Nat`). -/
structure TCPHeader where
  source : Nat
  destination : Nat
  ctrl : Nat
  deriving Repr, DecidableEq

/-- Parse error mandated by the spec for buffers shorter than the
protocol minimum. -/
inductive ParseError where
  | malformed : ParseError
  deriving Repr, DecidableEq

/-- Modelled from the spec: `NewTCPHeader` (the header file is not
under src/).  Spec section 9 records that the source extracts fields at
fixed big-endian offsets (RFC 793: ports at bytes 0-1 and 2-3, the
control-flag octet at byte 13) "without bound-checking header length";
an out-of-bounds byte access is embedded as `none`. -/
def newTCPHeader (b : List Nat) : Option TCPHeader := do
  let s0 ← b.get? 0
  let s1 ← b.get? 1
  let d0 ← b.get? 2
  let d1 ← b.get? 3
  let c ← b.get? 13
  pure ⟨s0 * 256 + s1, d0 * 256 + d1, c &&& 63⟩

/-- Modelled from the spec: the header parse contract of spec section
4.1 — fail with `Malformed` when the buffer is shorter than the 20-byte
TCP minimum, otherwise extract the same fixed big-endian fields. -/
def parseTCPHeaderSpec (b : List Nat) : Except ParseError TCPHeader :=
  if b.length < 20 then .error .malformed
  else
    .ok ⟨b.getD 0 0 * 256 + b.getD 1 0,
         b.getD 2 0 * 256 + b.getD 3 0,
         b.getD 13 0 &&& 63⟩

/-- The fields of the Go `UDPHeader` used by the guard loop. -/
structure UDPHeader where
  source : Nat
  destination : Nat
  len : Nat
  deriving Repr, DecidableEq

/-- Modelled from the spec: `NewUDPHeader` (the header file is not
under src/): ports at bytes 0-1 and 2-3, length at 4-5 (RFC 768), with
no length check on the input buffer (spec section 9). -/
def newUDPHeader (b : List Nat) : Option UDPHeader := do
  let s0 ← b.get? 0
  let s1 ← b.get? 1
  let d0 ← b.get? 2
  let d1 ← b.get? 3
  let l0 ← b.get? 4
  let l1 ← b.get? 5
  pure ⟨s0 * 256 + s1, d0 * 256 + d1, l0 * 256 + l1⟩

/-- Modelled from the spec: the UDP parse contract of spec section 4.1
— fail with `Malformed` below the 8-byte UDP minimum. -/
def parseUDPHeaderSpec (b : List Nat) : Except ParseError UDPHeader :=
  if b.length < 8 then .error .malformed
  else
    .ok ⟨b.getD 0 0 * 256 + b.getD 1 0,
         b.getD 2 0 * 256 + b.getD 3 0,
         b.getD 4 0 * 256 + b.getD 5 0⟩

/-- The configuration values consumed by the TCP guard loop
(guard.go:43-57).  `excludePorts` is `cfgExcludePorts`; `ignoreIps`
abstracts the CIDR-containment test `isIgnoredIP` over `cfgIgnoreIps`
(its verdict on the packet's source address string). -/
structure Config where
  minPort : Nat
  maxPort : Nat
  excludePorts : Nat → Bool
  ignoreIps : String → Bool

/-- Embeds `isExlcudePort` (guard.go:155-163): out of the monitored
range or in the excluded-port set. -/
def isExlcudePort (cfg : Config) (port : Nat) : Bool :=
  if port < cfg.minPort || port > cfg.maxPort then true
  else cfg.excludePorts port

/-- The two process-wide mutable maps the guard loop owns. -/
structure GuardState where
  engine : StateEngine
  cache : PortCache

/-- The observable events one packet can produce in `tcpGuard`
(guard.go:303-309): the `logAlarm` attack alert (with its
classification label), the `logBlocked` line, and the
`runExternalCommand` reaction dispatch. -/
inductive GuardEvent where
  | alarm (label : PacketType) (ip : String) (port : Nat)
  | blocked (ip : String) (port : Nat)
  | reaction (ip : String) (port : Nat)

/-- One captured TCP packet as the loop body sees it, together with the
per-iteration environment: the read time (`time.Now().Unix()` inside
`smartVerify`) and the OS outcome `probe` that `smartVerifyPort` would
report for its destination port at that moment. -/
structure TCPInput where
  srcIp : String
  header : TCPHeader
  now : Int
  probe : Bool

/-- Embeds one iteration of the `tcpGuard` loop body after a successful
read and header parse (guard.go:275-309): drop on RST/ACK, excluded
port, ignored source, already-blocked source, or port in use;
otherwise emit the alarm, feed the state engine, and on a trigger emit
the blocked line and dispatch the reaction.  Returns the new state and
the events emitted for this packet. -/
def tcpGuardStep (cfg : Config) (T : Nat) (D : Int) (st : GuardState)
    (inp : TCPInput) : GuardState × List GuardEvent :=
  let tcp := inp.header
  if hasFlag tcp.ctrl RST || hasFlag tcp.ctrl ACK then (st, [])
  else
    let port := tcp.destination
    let ipString := inp.srcIp
    if isExlcudePort cfg port then (st, [])
    else if cfg.ignoreIps ipString then (st, [])
    else if isBlockedIP T st.engine ipString then (st, [])
    else
      let v := smartVerify D st.cache inp.now inp.probe port
      if v.inUse then ({ st with cache := v.cache }, [])
      else
        let label := reportPacketType tcp.ctrl
        let r := checkStateEngine T st.engine ipString port
        let st' : GuardState := ⟨r.2, v.cache⟩
        if r.1 then
          (st', [.alarm label ipString port, .blocked ipString port,
                 .reaction ipString port])
        else
          (st', [.alarm label ipString port])

/-- A run of the TCP guard loop over a list of captured packets,
collecting each packet's events. -/
def tcpGuardRun (cfg : Config) (T : Nat) (D : Int) :
    GuardState → List TCPInput → GuardState × List (List GuardEvent)
  | st, [] => (st, [])
  | st, inp :: rest =>
    let r := tcpGuardStep cfg T D st inp
    let rr := tcpGuardRun cfg T D r.1 rest
    (rr.1, r.2 :: rr.2)

/-- Whether a packet's event list dispatched a reaction for `ip`. -/
def firesReaction (evs : List GuardEvent) (ip : String) : Bool :=
  evs.any fun e =>
    match e with
    | .reaction i _ => i = ip
    | _ => false

/-- How many packets of a run dispatched a reaction for `ip`. -/
def reactionCount (cfg : Config) (T : Nat) (D : Int) (st : GuardState)
    (inps : List TCPInput) (ip : String) : Nat :=
  ((tcpGuardRun cfg T D st inps).2).countP (fun evs => firesReaction evs ip)

/-- The three reaction kinds of `runExternalCommand`
(guard.go:228-251). -/
inductive ReactionKind where
  | route : ReactionKind
  | cmd : ReactionKind
  | notifyUrl : ReactionKind
  deriving DecidableEq, Repr

/-- One external invocation performed by the dispatch goroutine: the
reaction kind, its configured target (command string or URL), and the
`(mode, ip, port)` triple passed to it. -/
structure Invocation where
  kind : ReactionKind
  target : String
  mode : String
  ip : String
  port : Nat
  deriving DecidableEq, Repr

/-- The reaction targets from the configuration (guard.go:49-51); the
empty string means "not configured". -/
structure ReactionConfig where
  killRoute : String
  killRunCmd : String
  killNotifyUrl : String

/-- Embeds the body of `runExternalCommand` (guard.go:228-251).
`runCmd` and `requestUrl` live in a file not under src/; their outcomes
are abstracted by the oracle `outcome` (`some e` = the call returned
error `e`).  Returns the invocations performed, in order, and the
`logMain(false, ...)` failure log lines; the `false` exit flag means no
failure terminates the process.  If no reaction is configured nothing
runs; otherwise each configured reaction is invoked in sequence with
the `(mode, ip, port)` triple and each failure is logged
individually. -/
def runExternalCommand (cfg : ReactionConfig) (mode ip : String) (port : Nat)
    (outcome : ReactionKind → Option String) : List Invocation × List String :=
  if cfg.killRoute = "" && cfg.killRunCmd = "" && cfg.killNotifyUrl = "" then
    ([], [])
  else
    let part1 : List Invocation × List String :=
      if cfg.killRoute ≠ "" then
        ([⟨.route, cfg.killRoute, mode, ip, port⟩],
         match outcome .route with
         | some e => ["run kill_route:" ++ cfg.killRoute ++ " failed:" ++ e]
         | none => [])
      else ([], [])
    let part2 : List Invocation × List String :=
      if cfg.killRunCmd ≠ "" then
        ([⟨.cmd, cfg.killRunCmd, mode, ip, port⟩],
         match outcome .cmd with
         | some e => ["run kill_run_cmd:" ++ cfg.killRunCmd ++ " failed:" ++ e]
         | none => [])
      else ([], [])
    let part3 : List Invocation × List String :=
      if cfg.killNotifyUrl ≠ "" then
        ([⟨.notifyUrl, cfg.killNotifyUrl, mode, ip, port⟩],
         match outcome .notifyUrl with
         | some e => ["notify kill_notify_url:" ++ cfg.killNotifyUrl ++ " failed:" ++ e]
         | none => [])
      else ([], [])
    (part1.1 ++ part2.1 ++ part3.1, part1.2 ++ part2.2 ++ part3.2)

/-! ## Helper lemmas about the scan-state engine -/

lemma checkStateEngine_snd (T : Nat) (m : StateEngine) (ip : String) (port : Nat) :
    (checkStateEngine T m ip port).2 =
      if T + 1 ≤ (m ip).length then m
      else if port ∈ m ip then m
      else m.store ip (m ip ++ [port]) := by
  simp only [checkStateEngine]
  split
  · rfl
  · split
    · rfl
    · split <;> rfl

lemma checkStateEngine_fst (T : Nat) (m : StateEngine) (ip : String) (port : Nat) :
    (checkStateEngine T m ip port).1 =
      if T + 1 ≤ (m ip).length then true
      else if port ∈ m ip then false
      else decide (T + 1 ≤ (m ip).length + 1) := by
  simp only [checkStateEngine]
  split
  · rfl
  · split
    · rfl
    · split <;> rename_i h
      · simp only [List.length_append, List.length_cons, List.length_nil] at h
        simp [h]
      · simp only [List.length_append, List.length_cons, List.length_nil] at h
        simp [h]

lemma checkStateEngine_snd_other (T : Nat) (m : StateEngine) (ip q : String)
    (port : Nat) (hq : q ≠ ip) :
    (checkStateEngine T m ip port).2 q = m q := by
  rw [checkStateEngine_snd]
  split
  · rfl
  · split
    · rfl
    · simp [StateEngine.store, hq]

lemma checkStateEngine_snd_saturated (T : Nat) (m : StateEngine) (ip : String)
    (port : Nat) (h : T + 1 ≤ (m ip).length) :
    (checkStateEngine T m ip port).2 = m := by
  rw [checkStateEngine_snd, if_pos h]

lemma checkStateEngine_blocked_after (T : Nat) (m : StateEngine) (ip : String)
    (port : Nat) (hb : ¬ T + 1 ≤ (m ip).length)
    (ht : (checkStateEngine T m ip port).1 = true) :
    T < ((checkStateEngine T m ip port).2 ip).length := by
  rw [checkStateEngine_fst, if_neg hb] at ht
  rw [checkStateEngine_snd, if_neg hb]
  by_cases hmem : port ∈ m ip
  · rw [if_pos hmem] at ht
    simp at ht
  · rw [if_neg hmem] at ht
    rw [if_neg hmem]
    have hst : (m.store ip (m ip ++ [port])) ip = m ip ++ [port] := by
      simp [StateEngine.store]
    rw [hst]
    simp only [List.length_append, List.length_cons, List.length_nil]
    simp only [decide_eq_true_eq] at ht
    omega

/-- The two-part bound/no-duplicate invariant on the scan-state map. -/
def engineInv (T : Nat) (m : StateEngine) : Prop :=
  ∀ q, (m q).length ≤ T + 1 ∧ (m q).Nodup

lemma engineInv_empty (T : Nat) : engineInv T emptyEngine := by
  intro q
  constructor <;> simp [emptyEngine]

lemma checkStateEngine_preserves (T : Nat) (m : StateEngine) (ip : String)
    (port : Nat) (h : engineInv T m) :
    engineInv T (checkStateEngine T m ip port).2 := by
  intro q
  rw [checkStateEngine_snd]
  split
  · exact h q
  · split
    · exact h q
    · rename_i hlen hmem
      simp only [StateEngine.store]
      split
      · rename_i hq
        subst hq
        constructor
        · simp only [List.length_append, List.length_cons, List.length_nil]
          omega
        · rw [List.nodup_append]
          refine ⟨(h q).2, List.nodup_singleton port, ?_⟩
          intro a ha hb
          simp only [List.mem_singleton] at hb
          subst hb
          exact hmem ha
      · exact h q

lemma runStateEngine_preserves (T : Nat) (calls : List (String × Nat)) :
    ∀ m : StateEngine, engineInv T m → engineInv T (runStateEngine T m calls) := by
  induction calls with
  | nil => intro m h; exact h
  | cons c rest ih =>
    intro m h
    exact ih _ (checkStateEngine_preserves T m c.1 c.2 h)

/-! ## The claims about the scan-state engine -/

/-- C2: over any sequence of `checkStateEngine` calls starting from the
empty `stateEngine`, every source's stored port sequence has at most
`T + 1` entries and no duplicate port, and a single call preserves this
invariant from any map that satisfies it. -/
theorem scanState_bounded_nodup (T : Nat) (calls : List (String × Nat))
    (m : StateEngine) (ip ip' : String) (port : Nat) (h : engineInv T m) :
    ((runStateEngine T emptyEngine calls) ip).length ≤ T + 1 ∧
    ((runStateEngine T emptyEngine calls) ip).Nodup ∧
    (((checkStateEngine T m ip' port).2) ip).length ≤ T + 1 ∧
    (((checkStateEngine T m ip' port).2) ip).Nodup := by
  have h1 := runStateEngine_preserves T calls emptyEngine (engineInv_empty T) ip
  have h2 := checkStateEngine_preserves T m ip' port h ip
  exact ⟨h1.1, h1.2, h2.1, h2.2⟩

/-- Witness for C2 at `T = 0`, calls `("a", 1), ("b", 2)`. -/
theorem scanState_bounded_nodup_witness :
    ((runStateEngine 0 emptyEngine [("a", 1), ("b", 2)]) "a").length ≤ 0 + 1 ∧
    ((runStateEngine 0 emptyEngine [("a", 1), ("b", 2)]) "a").Nodup ∧
    (((checkStateEngine 0 emptyEngine "a" 5).2) "a").length ≤ 0 + 1 ∧
    (((checkStateEngine 0 emptyEngine "a" 5).2) "a").Nodup :=
  scanState_bounded_nodup 0 [("a", 1), ("b", 2)] emptyEngine "a" "a" 5
    (engineInv_empty 0)

/-- C5: with `scanTrigger = 2` (capacity 3), probes to ports
10, 20, 10, 30 from one source leave the stored sequence at lengths
1, 2, 2, 3, and only the fourth call reports the trigger. -/
theorem scanState_scenario_10_20_10_30 :
    (((checkStateEngine 2 emptyEngine "10.0.0.5" 10).2) "10.0.0.5").length = 1 ∧
    (((runStateEngine 2 emptyEngine [("10.0.0.5", 10), ("10.0.0.5", 20)])) "10.0.0.5").length = 2 ∧
    (((runStateEngine 2 emptyEngine [("10.0.0.5", 10), ("10.0.0.5", 20), ("10.0.0.5", 10)])) "10.0.0.5").length = 2 ∧
    (((runStateEngine 2 emptyEngine [("10.0.0.5", 10), ("10.0.0.5", 20), ("10.0.0.5", 10), ("10.0.0.5", 30)])) "10.0.0.5").length = 3 ∧
    (checkStateEngine 2 emptyEngine "10.0.0.5" 10).1 = false ∧
    (checkStateEngine 2 (runStateEngine 2 emptyEngine [("10.0.0.5", 10)]) "10.0.0.5" 20).1 = false ∧
    (checkStateEngine 2 (runStateEngine 2 emptyEngine [("10.0.0.5", 10), ("10.0.0.5", 20)]) "10.0.0.5" 10).1 = false ∧
    (checkStateEngine 2 (runStateEngine 2 emptyEngine [("10.0.0.5", 10), ("10.0.0.5", 20), ("10.0.0.5", 10)]) "10.0.0.5" 30).1 = true := by
  decide

/-- C9: once a source's sequence holds `T + 1` entries, every further
direct `checkStateEngine` call returns `true` — the same boolean that
signals the first crossing — with the map unchanged (so a second
saturated call returns `true` again), while a source one port short of
the threshold also gets `true` even though `isBlockedIP` is still
`false` for it: the boolean alone cannot tell an already-blocked source
from a first trigger. -/
theorem checkStateEngine_saturated (T : Nat) (m : StateEngine) (ip : String)
    (port : Nat) (h : T + 1 ≤ (m ip).length) :
    checkStateEngine T m ip port = (true, m) ∧
    checkStateEngine T (checkStateEngine T m ip port).2 ip port = (true, m) ∧
    ∃ m0 : StateEngine, ∃ port0 : Nat,
      isBlockedIP T m0 ip = false ∧ (checkStateEngine T m0 ip port0).1 = true := by
  have hpair : checkStateEngine T m ip port = (true, m) := by
    simp only [checkStateEngine]
    rw [if_pos h]
  refine ⟨hpair, by rw [hpair]; exact hpair, ?_⟩
  refine ⟨emptyEngine.store ip ((List.range T).map (· + 1)), 0, ?_, ?_⟩
  · simp [isBlockedIP, StateEngine.store]
  · rw [checkStateEngine_fst]
    have hlen : ((emptyEngine.store ip ((List.range T).map (· + 1))) ip).length = T := by
      simp [StateEngine.store]
    rw [if_neg (by omega)]
    have hmem : 0 ∉ (emptyEngine.store ip ((List.range T).map (· + 1))) ip := by
      simp [StateEngine.store]
    rw [if_neg hmem]
    simp [hlen]

/-- Witness for C9 at `T = 0` with a saturated one-entry sequence. -/
theorem checkStateEngine_saturated_witness :
    checkStateEngine 0 (emptyEngine.store "a" [5]) "a" 7 =
      (true, emptyEngine.store "a" [5]) ∧
    checkStateEngine 0 (checkStateEngine 0 (emptyEngine.store "a" [5]) "a" 7).2 "a" 7 =
      (true, emptyEngine.store "a" [5]) ∧
    ∃ m0 : StateEngine, ∃ port0 : Nat,
      isBlockedIP 0 m0 "a" = false ∧ (checkStateEngine 0 m0 "a" port0).1 = true :=
  checkStateEngine_saturated 0 (emptyEngine.store "a" [5]) "a" 7 (by simp [StateEngine.store])

/-! ## The packet classifier -/

/-- C7: the classifier checks, in order: all-zero flags give `Null`;
otherwise FIN, URG and PSH all set (other bits free) give `Xmas`;
otherwise a byte exactly equal to SYN gives `Syn`; anything else gives
`Unknown` carrying the raw byte. -/
theorem reportPacketType_order (f : Nat) :
    (reportPacketType f = .null ↔ f = 0) ∧
    (f ≠ 0 →
      (reportPacketType f = .xmas ↔
        f &&& (FIN ||| URG ||| PSH) = FIN ||| URG ||| PSH)) ∧
    (f ≠ 0 → f &&& (FIN ||| URG ||| PSH) ≠ FIN ||| URG ||| PSH →
      (reportPacketType f = .syn ↔ f = SYN)) ∧
    (f ≠ 0 → f &&& (FIN ||| URG ||| PSH) ≠ FIN ||| URG ||| PSH → f ≠ SYN →
      reportPacketType f = .unknown f) := by
  refine ⟨?_, ?_, ?_, ?_⟩
  · simp only [reportPacketType]
    split
    · simp_all
    · split
      · simp_all
      · split <;> simp_all
  · intro hf
    simp only [reportPacketType]
    rw [if_neg hf]
    split
    · simp_all
    · split <;> simp_all
  · intro hf hx
    simp only [reportPacketType]
    rw [if_neg hf, if_neg hx]
    split <;> simp_all
  · intro hf hx hs
    simp only [reportPacketType]
    rw [if_neg hf, if_neg hx, if_neg hs]

/-- Witness for C7: flag byte 43 = FIN+SYN+PSH+URG is classified XMAS
(extra SYN bit ignored), byte 2 is SYN, byte 0 is NULL, byte 20 is
unknown. -/
theorem reportPacketType_order_witness :
    reportPacketType 43 = .xmas ∧ reportPacketType 2 = .syn ∧
    reportPacketType 0 = .null ∧ reportPacketType 20 = .unknown 20 :=
  ⟨((reportPacketType_order 43).2.1 (by decide)).mpr (by decide),
   ((reportPacketType_order 2).2.2.1 (by decide) (by decide)).mpr (by decide),
   (reportPacketType_order 0).1.mpr rfl,
   (reportPacketType_order 20).2.2.2 (by decide) (by decide) (by decide)⟩

/-! ## The port-availability cache -/

/-- C3: with a positive cache duration `D`, a `smartVerify` that
confirms `port` in use at `t0` on a fresh entry returns `true` and
stores expiry `t0 + D`; on any cache `c1` holding that entry, a lookup
strictly before `t0 + D` answers `true` with no live probe and the
cache unchanged; a lookup at or after `t0 + D` performs a live probe,
after which the entry holds the new expiry on a positive probe and is
gone on a negative one; a negative probe on a fresh entry stores
nothing. -/
theorem smartVerify_cache (D : Int) (c c1 : PortCache) (t0 t1 t2 : Int)
    (port : Nat) (probe : Bool) (hD : 0 < D) (h0 : c port = none)
    (hc1 : c1 port = some (t0 + D)) (h1 : t1 < t0 + D) (h2 : t0 + D ≤ t2) :
    smartVerify D c t0 true port = ⟨true, c.store port (t0 + D), true⟩ ∧
    (c.store port (t0 + D)) port = some (t0 + D) ∧
    smartVerify D c1 t1 probe port = ⟨true, c1, false⟩ ∧
    (smartVerify D c1 t2 probe port).probed = true ∧
    (smartVerify D c1 t2 probe port).cache port =
      (if probe then some (t2 + D) else none) ∧
    smartVerify D c t0 false port = ⟨false, c, true⟩ := by
  have hD' : ¬ D ≤ 0 := by omega
  refine ⟨?_, ?_, ?_, ?_, ?_, ?_⟩
  · simp [smartVerify, hD', h0]
  · simp [PortCache.store]
  · simp only [smartVerify, if_neg hD', hc1]
    rw [if_pos (by omega : (t0 + D : Int) > t1)]
  · simp only [smartVerify, if_neg hD', hc1]
    rw [if_neg (by omega : ¬ (t0 + D : Int) > t2)]
    cases probe <;> simp
  · simp only [smartVerify, if_neg hD', hc1]
    rw [if_neg (by omega : ¬ (t0 + D : Int) > t2)]
    cases probe <;> simp [PortCache.store, PortCache.erase]
  · simp [smartVerify, hD', h0]

/-- Witness for C3 with the spec's numbers: `D = 60`, verification at
`t0 = 100` storing expiry 160, a cached hit at `159 = t0 + 59`, a
forced re-probe at `161 = t0 + 61`. -/
theorem smartVerify_cache_witness :
    smartVerify 60 emptyCache 100 true 9999 =
      ⟨true, emptyCache.store 9999 (100 + 60), true⟩ ∧
    (emptyCache.store 9999 (100 + 60)) 9999 = some (100 + 60) ∧
    smartVerify 60 (emptyCache.store 9999 160) 159 false 9999 =
      ⟨true, emptyCache.store 9999 160, false⟩ ∧
    (smartVerify 60 (emptyCache.store 9999 160) 161 false 9999).probed = true ∧
    (smartVerify 60 (emptyCache.store 9999 160) 161 false 9999).cache 9999 =
      (if false then some (161 + 60) else none) ∧
    smartVerify 60 emptyCache 100 false 9999 = ⟨false, emptyCache, true⟩ :=
  smartVerify_cache 60 emptyCache (emptyCache.store 9999 160) 100 159 161 9999 false
    (by decide) rfl (by simp [PortCache.store, emptyCache]) (by decide) (by decide)

/-! ## The TCP guard loop -/

/-- C6: a TCP packet whose control flags include RST or ACK is dropped
by the guard loop with no alarm, no blocked line, no reaction, and no
change to the scan state or the port cache, whatever its ports, source
or other flags. -/
theorem tcpGuard_rst_ack_drop (cfg : Config) (T : Nat) (D : Int)
    (st : GuardState) (inp : TCPInput)
    (h : (hasFlag inp.header.ctrl RST || hasFlag inp.header.ctrl ACK) = true) :
    tcpGuardStep cfg T D st inp = (st, []) := by
  simp only [tcpGuardStep, h]
  rfl

/-- Witness for C6: a SYN+ACK packet (flags 18) to an otherwise
alarm-worthy port is dropped with no state change. -/
theorem tcpGuard_rst_ack_drop_witness :
    tcpGuardStep ⟨0, 65535, fun _ => false, fun _ => false⟩ 2 60
      ⟨emptyEngine, emptyCache⟩ ⟨"10.0.0.5", ⟨4242, 9999, 18⟩, 100, false⟩ =
      (⟨emptyEngine, emptyCache⟩, []) :=
  tcpGuard_rst_ack_drop ⟨0, 65535, fun _ => false, fun _ => false⟩ 2 60
    ⟨emptyEngine, emptyCache⟩ ⟨"10.0.0.5", ⟨4242, 9999, 18⟩, 100, false⟩ (by decide)

/-- C10: when socket creation fails, `smartVerifyPort` returns `false`
("port not in use") whatever the bind outcome would have been; with
that probe result and no unexpired cache entry, a packet that passes
the flag, exclusion, ignore and blocked filters reaches the alarm and
the state engine as if the port were free, and no cache entry is
written for the port. -/
theorem socketFail_treated_as_free (cfg : Config) (T : Nat) (D : Int)
    (st : GuardState) (inp : TCPInput) (bindErr : Bool)
    (hprobe : inp.probe = smartVerifyPort false bindErr)
    (hflags : (hasFlag inp.header.ctrl RST || hasFlag inp.header.ctrl ACK) = false)
    (hexcl : isExlcudePort cfg inp.header.destination = false)
    (hign : cfg.ignoreIps inp.srcIp = false)
    (hblk : isBlockedIP T st.engine inp.srcIp = false)
    (hc : st.cache inp.header.destination = none) :
    smartVerifyPort false bindErr = false ∧
    (tcpGuardStep cfg T D st inp).1.cache inp.header.destination = none ∧
    (tcpGuardStep cfg T D st inp).1.engine =
      (checkStateEngine T st.engine inp.srcIp inp.header.destination).2 ∧
    GuardEvent.alarm (reportPacketType inp.header.ctrl) inp.srcIp
        inp.header.destination ∈ (tcpGuardStep cfg T D st inp).2 := by
  have hsvp : smartVerifyPort false bindErr = false := rfl
  have hp : inp.probe = false := by rw [hprobe, hsvp]
  have hv : smartVerify D st.cache inp.now inp.probe inp.header.destination =
      ⟨false, st.cache, true⟩ := by
    rw [hp]
    by_cases hD : D ≤ 0
    · simp [smartVerify, hD]
    · simp [smartVerify, hD, hc]
  refine ⟨hsvp, ?_, ?_, ?_⟩ <;>
    · simp only [tcpGuardStep, hflags, hexcl, hign, hblk, hv, Bool.false_eq_true,
        if_false]
      split <;> simp [hc]

/-- Witness for C10: socket creation fails for a NULL probe to port
9999 from a fresh source; the alarm fires, the port is recorded, and
the cache stays empty. -/
theorem socketFail_treated_as_free_witness :
    smartVerifyPort false true = false ∧
    (tcpGuardStep ⟨0, 65535, fun _ => false, fun _ => false⟩ 2 60
        ⟨emptyEngine, emptyCache⟩
        ⟨"10.0.0.5", ⟨4242, 9999, 0⟩, 100, false⟩).1.cache 9999 = none ∧
    (tcpGuardStep ⟨0, 65535, fun _ => false, fun _ => false⟩ 2 60
        ⟨emptyEngine, emptyCache⟩
        ⟨"10.0.0.5", ⟨4242, 9999, 0⟩, 100, false⟩).1.engine =
      (checkStateEngine 2 emptyEngine "10.0.0.5" 9999).2 ∧
    GuardEvent.alarm (reportPacketType 0) "10.0.0.5" 9999 ∈
      (tcpGuardStep ⟨0, 65535, fun _ => false, fun _ => false⟩ 2 60
        ⟨emptyEngine, emptyCache⟩
        ⟨"10.0.0.5", ⟨4242, 9999, 0⟩, 100, false⟩).2 :=
  socketFail_treated_as_free ⟨0, 65535, fun _ => false, fun _ => false⟩ 2 60
    ⟨emptyEngine, emptyCache⟩ ⟨"10.0.0.5", ⟨4242, 9999, 0⟩, 100, false⟩ true
    rfl (by decide) (by decide) rfl (by decide) rfl

/-! ## The reaction dispatcher -/

lemma runExternalCommand_fst (cfg : ReactionConfig) (mode ip : String)
    (port : Nat) (outcome : ReactionKind → Option String) :
    (runExternalCommand cfg mode ip port outcome).1 =
      (if cfg.killRoute ≠ "" then [⟨.route, cfg.killRoute, mode, ip, port⟩] else []) ++
      (if cfg.killRunCmd ≠ "" then [⟨.cmd, cfg.killRunCmd, mode, ip, port⟩] else []) ++
      (if cfg.killNotifyUrl ≠ "" then
        [(⟨.notifyUrl, cfg.killNotifyUrl, mode, ip, port⟩ : Invocation)] else []) := by
  by_cases h1 : cfg.killRoute = "" <;> by_cases h2 : cfg.killRunCmd = "" <;>
    by_cases h3 : cfg.killNotifyUrl = "" <;>
    simp [runExternalCommand, h1, h2, h3]

lemma runExternalCommand_snd (cfg : ReactionConfig) (mode ip : String)
    (port : Nat) (outcome : ReactionKind → Option String) :
    (runExternalCommand cfg mode ip port outcome).2 =
      (if cfg.killRoute ≠ "" then
        (match outcome .route with
         | some e => ["run kill_route:" ++ cfg.killRoute ++ " failed:" ++ e]
         | none => []) else []) ++
      (if cfg.killRunCmd ≠ "" then
        (match outcome .cmd with
         | some e => ["run kill_run_cmd:" ++ cfg.killRunCmd ++ " failed:" ++ e]
         | none => []) else []) ++
      (if cfg.killNotifyUrl ≠ "" then
        (match outcome .notifyUrl with
         | some e => ["notify kill_notify_url:" ++ cfg.killNotifyUrl ++ " failed:" ++ e]
         | none => []) else []) := by
  by_cases h1 : cfg.killRoute = "" <;> by_cases h2 : cfg.killRunCmd = "" <;>
    by_cases h3 : cfg.killNotifyUrl = "" <;>
    simp [runExternalCommand, h1, h2, h3]

/-- C8: every configured reaction is invoked with the `(mode, ip,
port)` triple; each failing reaction contributes its own (non-fatal)
log line; and the list of invocations performed does not depend on the
outcomes at all, so one reaction's failure never suppresses another
reaction. -/
theorem reactions_all_invoked_failures_logged (cfg : ReactionConfig)
    (mode ip : String) (port : Nat)
    (outcome outcome' : ReactionKind → Option String) (e : String) :
    (cfg.killRoute ≠ "" →
      (⟨.route, cfg.killRoute, mode, ip, port⟩ : Invocation) ∈
        (runExternalCommand cfg mode ip port outcome).1) ∧
    (cfg.killRunCmd ≠ "" →
      (⟨.cmd, cfg.killRunCmd, mode, ip, port⟩ : Invocation) ∈
        (runExternalCommand cfg mode ip port outcome).1) ∧
    (cfg.killNotifyUrl ≠ "" →
      (⟨.notifyUrl, cfg.killNotifyUrl, mode, ip, port⟩ : Invocation) ∈
        (runExternalCommand cfg mode ip port outcome).1) ∧
    (cfg.killRoute ≠ "" → outcome .route = some e →
      ("run kill_route:" ++ cfg.killRoute ++ " failed:" ++ e) ∈
        (runExternalCommand cfg mode ip port outcome).2) ∧
    (cfg.killRunCmd ≠ "" → outcome .cmd = some e →
      ("run kill_run_cmd:" ++ cfg.killRunCmd ++ " failed:" ++ e) ∈
        (runExternalCommand cfg mode ip port outcome).2) ∧
    (cfg.killNotifyUrl ≠ "" → outcome .notifyUrl = some e →
      ("notify kill_notify_url:" ++ cfg.killNotifyUrl ++ " failed:" ++ e) ∈
        (runExternalCommand cfg mode ip port outcome).2) ∧
    (runExternalCommand cfg mode ip port outcome).1 =
      (runExternalCommand cfg mode ip port outcome').1 := by
  refine ⟨?_, ?_, ?_, ?_, ?_, ?_, ?_⟩
  · intro h
    rw [runExternalCommand_fst]
    simp [h]
  · intro h
    rw [runExternalCommand_fst]
    simp [h]
  · intro h
    rw [runExternalCommand_fst]
    simp [h]
  · intro h he
    rw [runExternalCommand_snd]
    simp [h, he]
  · intro h he
    rw [runExternalCommand_snd]
    simp [h, he]
  · intro h he
    rw [runExternalCommand_snd]
    simp [h, he]
  · rw [runExternalCommand_fst, runExternalCommand_fst]

/-- Witness for C8: all three reactions configured, route and notify
fail, command succeeds — all three invocations happen, the two
failures are each logged. -/
theorem reactions_all_invoked_failures_logged_witness :
    ((⟨.route, "r", "tcp", "10.0.0.5", 9999⟩ : Invocation) ∈
      (runExternalCommand ⟨"r", "c", "u"⟩ "tcp" "10.0.0.5" 9999
        (fun k => if k = .cmd then none else some "boom")).1) ∧
    ((⟨.cmd, "c", "tcp", "10.0.0.5", 9999⟩ : Invocation) ∈
      (runExternalCommand ⟨"r", "c", "u"⟩ "tcp" "10.0.0.5" 9999
        (fun k => if k = .cmd then none else some "boom")).1) ∧
    ((⟨.notifyUrl, "u", "tcp", "10.0.0.5", 9999⟩ : Invocation) ∈
      (runExternalCommand ⟨"r", "c", "u"⟩ "tcp" "10.0.0.5" 9999
        (fun k => if k = .cmd then none else some "boom")).1) ∧
    (("run kill_route:" ++ "r" ++ " failed:" ++ "boom") ∈
      (runExternalCommand ⟨"r", "c", "u"⟩ "tcp" "10.0.0.5" 9999
        (fun k => if k = .cmd then none else some "boom")).2) ∧
    (("notify kill_notify_url:" ++ "u" ++ " failed:" ++ "boom") ∈
      (runExternalCommand ⟨"r", "c", "u"⟩ "tcp" "10.0.0.5" 9999
        (fun k => if k = .cmd then none else some "boom")).2) ∧
    (runExternalCommand ⟨"r", "c", "u"⟩ "tcp" "10.0.0.5" 9999
        (fun k => if k = .cmd then none else some "boom")).1 =
      (runExternalCommand ⟨"r", "c", "u"⟩ "tcp" "10.0.0.5" 9999 (fun _ => none)).1 := by
  have h := reactions_all_invoked_failures_logged ⟨"r", "c", "u"⟩ "tcp" "10.0.0.5" 9999
    (fun k => if k = .cmd then none else some "boom") (fun _ => none) "boom"
  exact ⟨h.1 (by decide), h.2.1 (by decide), h.2.2.1 (by decide),
    h.2.2.2.1 (by decide) (by decide), h.2.2.2.2.2.1 (by decide) (by decide),
    h.2.2.2.2.2.2⟩

/-! ## Header parsing on short buffers -/

/-- C4 (divergence witness): on a 5-byte TCP buffer the source's parser
(modelled per spec section 9, no length check) performs an
out-of-bounds read, and even on a 14-byte buffer it happily extracts
all fields — in both cases the spec's contract demands a `Malformed`
failure (minimum 20 bytes); likewise for UDP (minimum 8 bytes, 3- and
7-byte buffers).  Nothing in `tcpGuard`/`udpGuard` checks a parse
error, so no drop happens. -/
theorem headerParse_short_buffer_divergence :
    newTCPHeader [0, 80, 0, 22, 2] = none ∧
    parseTCPHeaderSpec [0, 80, 0, 22, 2] = .error .malformed ∧
    newTCPHeader [0, 80, 0, 22, 0, 0, 0, 0, 0, 0, 0, 0, 0, 2] = some ⟨80, 22, 2⟩ ∧
    parseTCPHeaderSpec [0, 80, 0, 22, 0, 0, 0, 0, 0, 0, 0, 0, 0, 2] =
      .error .malformed ∧
    newUDPHeader [0, 53, 0] = none ∧
    parseUDPHeaderSpec [0, 53, 0] = .error .malformed ∧
    newUDPHeader [0, 53, 0, 80, 0, 9, 0] = some ⟨53, 80, 9⟩ ∧
    parseUDPHeaderSpec [0, 53, 0, 80, 0, 9, 0] = .error .malformed := by
  refine ⟨rfl, rfl, rfl, rfl, rfl, rfl, rfl, rfl⟩

/-! ## At most one reaction per source IP -/

lemma tcpGuardStep_cases (cfg : Config) (T : Nat) (D : Int)
    (st : GuardState) (inp : TCPInput) :
    ((tcpGuardStep cfg T D st inp).1.engine = st.engine ∧
     (tcpGuardStep cfg T D st inp).2 = []) ∨
    (isBlockedIP T st.engine inp.srcIp = false ∧
     (tcpGuardStep cfg T D st inp).1.engine =
       (checkStateEngine T st.engine inp.srcIp inp.header.destination).2 ∧
     ((tcpGuardStep cfg T D st inp).2 =
        [.alarm (reportPacketType inp.header.ctrl) inp.srcIp
           inp.header.destination] ∨
      ((checkStateEngine T st.engine inp.srcIp inp.header.destination).1 = true ∧
       (tcpGuardStep cfg T D st inp).2 =
         [.alarm (reportPacketType inp.header.ctrl) inp.srcIp
            inp.header.destination,
          .blocked inp.srcIp inp.header.destination,
          .reaction inp.srcIp inp.header.destination]))) := by
  simp only [tcpGuardStep]
  split
  · exact Or.inl ⟨rfl, rfl⟩
  · split
    · exact Or.inl ⟨rfl, rfl⟩
    · split
      · exact Or.inl ⟨rfl, rfl⟩
      · split
        · exact Or.inl ⟨rfl, rfl⟩
        · rename_i hblk
          split
          · exact Or.inl ⟨rfl, rfl⟩
          · split
            · rename_i htrig
              exact Or.inr ⟨by simpa using hblk, rfl, Or.inr ⟨htrig, rfl⟩⟩
            · exact Or.inr ⟨by simpa using hblk, rfl, Or.inl rfl⟩

lemma firesReaction_nil (ip : String) : firesReaction [] ip = false := rfl

lemma firesReaction_alarm (label : PacketType) (i : String) (p : Nat)
    (ip : String) : firesReaction [.alarm label i p] ip = false := by
  simp [firesReaction]

lemma firesReaction_triple (label : PacketType) (i : String) (p : Nat)
    (ip : String) :
    firesReaction [.alarm label i p, .blocked i p, .reaction i p] ip =
      decide (i = ip) := by
  simp [firesReaction]

lemma tcpGuardStep_fires (cfg : Config) (T : Nat) (D : Int)
    (st : GuardState) (inp : TCPInput) (ip : String)
    (hf : firesReaction (tcpGuardStep cfg T D st inp).2 ip = true) :
    isBlockedIP T st.engine ip = false ∧
    isBlockedIP T (tcpGuardStep cfg T D st inp).1.engine ip = true := by
  rcases tcpGuardStep_cases cfg T D st inp with ⟨_, hev⟩ | ⟨hblk, heng, hev | ⟨htrig, hev⟩⟩
  · rw [hev, firesReaction_nil] at hf
    exact absurd hf (by simp)
  · rw [hev, firesReaction_alarm] at hf
    exact absurd hf (by simp)
  · rw [hev, firesReaction_triple] at hf
    have hip : inp.srcIp = ip := by simpa using hf
    subst hip
    refine ⟨hblk, ?_⟩
    rw [heng]
    have hlen : ¬ T + 1 ≤ (st.engine inp.srcIp).length := by
      simp only [isBlockedIP, decide_eq_false_iff_not, not_lt] at hblk
      omega
    have := checkStateEngine_blocked_after T st.engine inp.srcIp
      inp.header.destination hlen htrig
    simpa [isBlockedIP]

lemma tcpGuardStep_blocked_preserved (cfg : Config) (T : Nat) (D : Int)
    (st : GuardState) (inp : TCPInput) (ip : String)
    (h : isBlockedIP T st.engine ip = true) :
    isBlockedIP T (tcpGuardStep cfg T D st inp).1.engine ip = true ∧
    firesReaction (tcpGuardStep cfg T D st inp).2 ip = false := by
  have hfires : firesReaction (tcpGuardStep cfg T D st inp).2 ip = false := by
    by_contra hc
    rw [Bool.not_eq_false] at hc
    have := (tcpGuardStep_fires cfg T D st inp ip hc).1
    rw [h] at this
    exact absurd this (by simp)
  refine ⟨?_, hfires⟩
  rcases tcpGuardStep_cases cfg T D st inp with ⟨heng, _⟩ | ⟨hblk, heng, _⟩
  · rw [heng]; exact h
  · by_cases hip : inp.srcIp = ip
    · rw [hip] at hblk
      rw [h] at hblk
      exact absurd hblk (by simp)
    · rw [heng]
      have := checkStateEngine_snd_other T st.engine inp.srcIp ip
        inp.header.destination (Ne.symm hip)
      simp only [isBlockedIP] at h ⊢
      rw [this]
      exact h

lemma tcpGuardRun_blocked_zero (cfg : Config) (T : Nat) (D : Int)
    (ip : String) (inps : List TCPInput) :
    ∀ st : GuardState, isBlockedIP T st.engine ip = true →
      reactionCount cfg T D st inps ip = 0 := by
  induction inps with
  | nil => intro st _; rfl
  | cons inp rest ih =>
    intro st h
    have hstep := tcpGuardStep_blocked_preserved cfg T D st inp ip h
    simp only [reactionCount, tcpGuardRun, List.countP_cons] at ih ⊢
    rw [hstep.2]
    simpa using ih (tcpGuardStep cfg T D st inp).1 hstep.1

/-- C1: over any run of the TCP guard loop, from any starting state,
the reaction dispatch (the `FirstTrigger` outcome: blocked log plus
`runExternalCommand`) happens for a given source IP on at most one
packet; every other packet from that IP is dropped early or merely
alarmed. -/
theorem reaction_fires_at_most_once (cfg : Config) (T : Nat) (D : Int)
    (st : GuardState) (inps : List TCPInput) (ip : String) :
    reactionCount cfg T D st inps ip ≤ 1 := by
  induction inps generalizing st with
  | nil => simp [reactionCount, tcpGuardRun]
  | cons inp rest ih =>
    simp only [reactionCount, tcpGuardRun, List.countP_cons] at ih ⊢
    by_cases hf : firesReaction (tcpGuardStep cfg T D st inp).2 ip = true
    · have hpost := (tcpGuardStep_fires cfg T D st inp ip hf).2
      have hzero := tcpGuardRun_blocked_zero cfg T D ip rest
        (tcpGuardStep cfg T D st inp).1 hpost
      simp only [reactionCount] at hzero
      rw [hf, hzero]
      simp
    · rw [Bool.not_eq_true] at hf
      rw [hf]
      simpa using ih (tcpGuardStep cfg T D st inp).1

end Portguard
